import Mathlib

/-!
Shallow embedding of the German receipt QR payload parser of
src/src/components/QRScanner.tsx (function parseReceiptString, lines 54-107),
together with theorems settling the spec claims about it.

JavaScript numbers produced by Number(...) and parseInt(...) are modelled by
JSNum: either the not-a-number marker or an exact rational value (the inputs of
interest are short decimal literals, which are exact in this range).
JavaScript strings are modelled by Lean String, and String.prototype.split with
a single-character separator (the only form the source uses) is modelled by
jsSplit below.  A destructured element past the end of the split array is
JavaScript undefined; it is modelled by Option via List.get?.
-/

namespace QRPoc

/-- JavaScript number values reachable in this parser: NaN or a finite value,
the latter represented exactly as a rational. -/
inductive JSNum where
  | nan : JSNum
  | val : ℚ → JSNum
deriving DecidableEq, Repr

/-- Whitespace stripped by JavaScript Number()/parseInt() conversion (the
common ASCII forms). -/
def isJsWhitespace (c : Char) : Bool :=
  c = ' ' || c = '\t' || c = '\n' || c = '\r'

/-- Value of a list of decimal digit characters, most significant first. -/
def digitsVal (l : List Char) : ℕ :=
  l.foldl (fun a c => 10 * a + (c.toNat - 48)) 0

/-- Exponent suffix of a JavaScript decimal literal: empty, or e/E followed by
an optionally signed digit string.  Returns the scale factor, or none when the
suffix is malformed. -/
def expFactor : List Char → Option ℚ
  | [] => some 1
  | c :: r =>
    if c = 'e' || c = 'E' then
      match r with
      | '-' :: t =>
        if !t.isEmpty && t.all Char.isDigit then some (((10 : ℚ) ^ digitsVal t)⁻¹) else none
      | '+' :: t =>
        if !t.isEmpty && t.all Char.isDigit then some ((10 : ℚ) ^ digitsVal t) else none
      | t =>
        if !t.isEmpty && t.all Char.isDigit then some ((10 : ℚ) ^ digitsVal t) else none
    else none

/-- Unsigned part of a JavaScript decimal number literal:
digits [ . digits ] [ exponent ] or . digits [ exponent ].  Returns none when
the characters do not form such a literal. -/
def parseUnsignedDec (l : List Char) : Option ℚ :=
  let intPart := l.takeWhile Char.isDigit
  let r1 := l.drop intPart.length
  match r1 with
  | '.' :: r2 =>
    let fracPart := r2.takeWhile Char.isDigit
    let r3 := r2.drop fracPart.length
    if intPart.isEmpty && fracPart.isEmpty then none
    else
      (expFactor r3).map fun e =>
        ((digitsVal intPart : ℚ) + (digitsVal fracPart : ℚ) / (10 : ℚ) ^ fracPart.length) * e
  | _ =>
    if intPart.isEmpty then none
    else (expFactor r1).map fun e => (digitsVal intPart : ℚ) * e

/-- Model of JavaScript Number(string): trim whitespace, empty string is 0,
otherwise an optionally signed decimal literal; anything else is NaN.
(Hex/binary/octal literals and the word Infinity are outside the modelled
grammar; no claim input uses them.) -/
def jsStringToNumber (s : String) : JSNum :=
  let l := ((s.data.dropWhile isJsWhitespace).reverse.dropWhile isJsWhitespace).reverse
  match l with
  | [] => .val 0
  | '-' :: r =>
    match parseUnsignedDec r with
    | some q => .val (-q)
    | none => .nan
  | '+' :: r =>
    match parseUnsignedDec r with
    | some q => .val q
    | none => .nan
  | r =>
    match parseUnsignedDec r with
    | some q => .val q
    | none => .nan

/-- Model of JavaScript parseInt(string, 10): trim leading whitespace, optional
sign, then the longest prefix of decimal digits; NaN when that prefix is
empty. -/
def jsParseInt10 (s : String) : JSNum :=
  let l := s.data.dropWhile isJsWhitespace
  match l with
  | '-' :: r =>
    let ds := r.takeWhile Char.isDigit
    if ds.isEmpty then .nan else .val (-(digitsVal ds : ℚ))
  | '+' :: r =>
    let ds := r.takeWhile Char.isDigit
    if ds.isEmpty then .nan else .val (digitsVal ds : ℚ)
  | r =>
    let ds := r.takeWhile Char.isDigit
    if ds.isEmpty then .nan else .val (digitsVal ds : ℚ)

/-- Split a character list at every occurrence of the separator character.
This is the semantics of JavaScript String.prototype.split with a
single-character separator string: the empty list yields one empty piece, and
adjacent separators yield empty pieces. -/
def splitOnChar (sep : Char) : List Char → List (List Char)
  | [] => [[]]
  | c :: t =>
    let r := splitOnChar sep t
    if c = sep then [] :: r
    else
      match r with
      | [] => [[c]]
      | h :: r2 => (c :: h) :: r2

/-- Model of JavaScript s.split(sep) for a single-character separator sep. -/
def jsSplit (sep : Char) (s : String) : List String :=
  (splitOnChar sep s.data).map List.asString

/-- The vatBreakdown object of the GermanReceiptData interface
(QRScanner.tsx lines 33-39). -/
structure VatBreakdown where
  total : JSNum
  vat0 : JSNum
  vat7 : JSNum
  vat19 : JSNum
  other : JSNum
deriving DecidableEq, Repr

/-- The nested receipt object of the GermanReceiptData interface
(QRScanner.tsx lines 31-42).  paymentMethod is Option String because the
source assigns the second element of paymentString.split, which is the
JavaScript undefined value when that element does not exist. -/
structure ReceiptBody where
  label : String
  vatBreakdown : VatBreakdown
  totalAmount : JSNum
  paymentMethod : Option String
deriving DecidableEq, Repr

/-- The GermanReceiptData interface (QRScanner.tsx lines 27-51).
receiptCounter is JSNum because parseInt can yield NaN. -/
structure GermanReceiptData where
  version : String
  transactionUUID : String
  documentType : String
  receipt : ReceiptBody
  receiptCounter : JSNum
  registerID : String
  timestampStart : String
  timestampEnd : String
  signatureAlgorithm : String
  timeFormat : String
  signature : String
  certificateHash : String
deriving DecidableEq, Repr

/-- Embedding of parseReceiptString (QRScanner.tsx lines 54-107).
The destructuring const [label, vatString, paymentString] = parts[3].split("^")
makes vatString/paymentString undefined when fewer than 2/3 pieces exist, and
the guard !vatString || !paymentString rejects both undefined and the empty
string; this is modelled by the match on List.get? plus the emptiness test.
Nothing in the try block can throw, so the catch branch is unreachable and the
function is directly total. -/
def parseReceiptString (receiptString : String) : Option GermanReceiptData :=
  let parts := jsSplit ';' receiptString
  if parts.length < 12 then none
  else
    let pieces := jsSplit '^' (parts.getD 3 "")
    let label := pieces.getD 0 ""
    match pieces.get? 1, pieces.get? 2 with
    | some vatString, some paymentString =>
      if vatString = "" ∨ paymentString = "" then none
      else
        let vatComponents := (jsSplit '_' vatString).map jsStringToNumber
        if vatComponents.length < 5 then none
        else
          some
            { version := parts.getD 0 ""
              transactionUUID := parts.getD 1 ""
              documentType := parts.getD 2 ""
              receipt :=
                { label := label
                  vatBreakdown :=
                    { total := vatComponents.getD 0 .nan
                      vat0 := vatComponents.getD 1 .nan
                      vat7 := vatComponents.getD 2 .nan
                      vat19 := vatComponents.getD 3 .nan
                      other := vatComponents.getD 4 .nan }
                  totalAmount := vatComponents.getD 0 .nan
                  paymentMethod := (jsSplit ':' paymentString).get? 1 }
              receiptCounter := jsParseInt10 (parts.getD 4 "")
              registerID := parts.getD 5 ""
              timestampStart := parts.getD 6 ""
              timestampEnd := parts.getD 7 ""
              signatureAlgorithm := parts.getD 8 ""
              timeFormat := parts.getD 9 ""
              signature := parts.getD 10 ""
              certificateHash := parts.getD 11 "" }
    | _, _ => none

/-- Entry i of the five VAT breakdown fields of a record, in source order. -/
def vatEntry (r : GermanReceiptData) (i : ℕ) : JSNum :=
  [r.receipt.vatBreakdown.total, r.receipt.vatBreakdown.vat0, r.receipt.vatBreakdown.vat7,
    r.receipt.vatBreakdown.vat19, r.receipt.vatBreakdown.other].getD i .nan

/-- VAT entry i of a parse outcome (none when the parse failed). -/
def vatEntryOpt (o : Option GermanReceiptData) (i : ℕ) : Option JSNum :=
  o.map fun r => vatEntry r i

/-- Payment method of a parse outcome (none when the parse failed; some none
when the parse succeeded with an undefined payment method). -/
def paymentMethodOpt (o : Option GermanReceiptData) : Option (Option String) :=
  o.map fun r => r.receipt.paymentMethod

/-- Receipt counter of a parse outcome (none when the parse failed). -/
def receiptCounterOpt (o : Option GermanReceiptData) : Option JSNum :=
  o.map fun r => r.receiptCounter

/-- Total amount of a parse outcome (none when the parse failed). -/
def totalAmountOpt (o : Option GermanReceiptData) : Option JSNum :=
  o.map fun r => r.receipt.totalAmount

/-- VAT total of a parse outcome (none when the parse failed). -/
def vatTotalOpt (o : Option GermanReceiptData) : Option JSNum :=
  o.map fun r => r.receipt.vatBreakdown.total

theorem splitOnChar_of_not_mem {sep : Char} {l : List Char} (h : sep ∉ l) :
    splitOnChar sep l = [l] := by
  induction l with
  | nil => rfl
  | cons c t ih =>
    have hc : ¬ c = sep := by
      intro e
      exact h (by rw [← e]; exact List.mem_cons_self c t)
    have ht : sep ∉ t := fun m => h (List.mem_cons_of_mem _ m)
    simp only [splitOnChar, ih ht, if_neg hc]

theorem asString_data (s : String) : s.data.asString = s := rfl

theorem jsSplit_of_not_mem {sep : Char} {s : String} (h : sep ∉ s.data) :
    jsSplit sep s = [s] := by
  unfold jsSplit
  rw [splitOnChar_of_not_mem h]
  simp [asString_data]

theorem getD_eq_get?_getD {α : Type} (l : List α) (n : ℕ) (d : α) :
    l.getD n d = (l.get? n).getD d := by
  simp [List.getD, List.get?_eq_getElem?]

theorem getD_map_lt {α β : Type} (f : α → β) (l : List α) (i : ℕ) (d : α) (e : β)
    (h : i < l.length) :
    (l.map f).getD i e = f (l.getD i d) := by
  induction l generalizing i with
  | nil => simp at h
  | cons a t ih =>
    cases i with
    | zero => rfl
    | succ n => simpa using ih n (by simpa using h)

/-- Shape of every successful parse: when the structural checks of
parseReceiptString pass, the result is exactly this record. -/
theorem parseReceiptString_eq (s v p : String)
    (h12 : ¬ (jsSplit ';' s).length < 12)
    (hv : (jsSplit '^' ((jsSplit ';' s).getD 3 "")).get? 1 = some v)
    (hp : (jsSplit '^' ((jsSplit ';' s).getD 3 "")).get? 2 = some p)
    (hvne : ¬ v = "") (hpne : ¬ p = "")
    (h5 : ¬ ((jsSplit '_' v).map jsStringToNumber).length < 5) :
    parseReceiptString s = some
      { version := (jsSplit ';' s).getD 0 ""
        transactionUUID := (jsSplit ';' s).getD 1 ""
        documentType := (jsSplit ';' s).getD 2 ""
        receipt :=
          { label := (jsSplit '^' ((jsSplit ';' s).getD 3 "")).getD 0 ""
            vatBreakdown :=
              { total := ((jsSplit '_' v).map jsStringToNumber).getD 0 .nan
                vat0 := ((jsSplit '_' v).map jsStringToNumber).getD 1 .nan
                vat7 := ((jsSplit '_' v).map jsStringToNumber).getD 2 .nan
                vat19 := ((jsSplit '_' v).map jsStringToNumber).getD 3 .nan
                other := ((jsSplit '_' v).map jsStringToNumber).getD 4 .nan }
            totalAmount := ((jsSplit '_' v).map jsStringToNumber).getD 0 .nan
            paymentMethod := (jsSplit ':' p).get? 1 }
        receiptCounter := jsParseInt10 ((jsSplit ';' s).getD 4 "")
        registerID := (jsSplit ';' s).getD 5 ""
        timestampStart := (jsSplit ';' s).getD 6 ""
        timestampEnd := (jsSplit ';' s).getD 7 ""
        signatureAlgorithm := (jsSplit ';' s).getD 8 ""
        timeFormat := (jsSplit ';' s).getD 9 ""
        signature := (jsSplit ';' s).getD 10 ""
        certificateHash := (jsSplit ';' s).getD 11 "" } := by
  simp only [parseReceiptString]
  rw [if_neg h12, hv, hp]
  exact (if_neg (show ¬(v = "" ∨ p = "") from by simp [hvne, hpne])).trans (if_neg h5)

theorem jsStringToNumber_12_50 : jsStringToNumber "12.50" = .val (25 / 2) := by
  have h : jsStringToNumber "12.50"
      = .val ((((12 : ℕ) : ℚ) + ((50 : ℕ) : ℚ) / (10 : ℚ) ^ (2 : ℕ)) * 1) := rfl
  rw [h]; norm_num

theorem jsStringToNumber_0 : jsStringToNumber "0" = .val 0 := by
  have h : jsStringToNumber "0" = .val (((0 : ℕ) : ℚ) * 1) := rfl
  rw [h]; norm_num

theorem jsStringToNumber_2_50 : jsStringToNumber "2.50" = .val (5 / 2) := by
  have h : jsStringToNumber "2.50"
      = .val ((((2 : ℕ) : ℚ) + ((50 : ℕ) : ℚ) / (10 : ℚ) ^ (2 : ℕ)) * 1) := rfl
  rw [h]; norm_num

theorem jsStringToNumber_10_00 : jsStringToNumber "10.00" = .val 10 := by
  have h : jsStringToNumber "10.00"
      = .val ((((10 : ℕ) : ℚ) + ((0 : ℕ) : ℚ) / (10 : ℚ) ^ (2 : ℕ)) * 1) := rfl
  rw [h]; norm_num

theorem jsParseInt10_42 : jsParseInt10 "42" = .val 42 := by
  have h : jsParseInt10 "42" = .val ((42 : ℕ) : ℚ) := rfl
  rw [h]; norm_num

/-- C1 counterexample: the exact example input of the claim fails to parse.
Its field 3 is "Supermarkt^12.50_0_0_2.50_10.00:EC:card", which contains only
one caret, so splitting it on the caret yields two pieces; the destructured
paymentString is undefined and parseReceiptString returns the failure outcome
rather than the claimed success. -/
theorem c1_spec_example_fails :
    parseReceiptString "1.0;9f2c-uuid;Beleg;Supermarkt^12.50_0_0_2.50_10.00:EC:card;42;REG01;2023-01-01T10:00:00;2023-01-01T10:05:00;SHA256;UTC;abcSIG;certHASH123" = none := by
  rfl

/-- C1 (amended): parsing the example input with the payment sub-part of
field 3 separated from the VAT block by a caret (field 3 =
"Supermarkt^12.50_0_0_2.50_10.00^EC:card") succeeds and yields a record with
version "1.0", transactionUUID "9f2c-uuid", documentType "Beleg",
label "Supermarkt", vatBreakdown total 12.50, vat0 0, vat7 0, vat19 2.50,
other 10.00, totalAmount 12.50, paymentMethod "card", receiptCounter 42 and
registerID "REG01". -/
theorem c1_amended_example_parses :
    ∃ r : GermanReceiptData,
      parseReceiptString "1.0;9f2c-uuid;Beleg;Supermarkt^12.50_0_0_2.50_10.00^EC:card;42;REG01;2023-01-01T10:00:00;2023-01-01T10:05:00;SHA256;UTC;abcSIG;certHASH123" = some r
      ∧ r.version = "1.0" ∧ r.transactionUUID = "9f2c-uuid" ∧ r.documentType = "Beleg"
      ∧ r.receipt.label = "Supermarkt"
      ∧ r.receipt.vatBreakdown.total = .val (25 / 2)
      ∧ r.receipt.vatBreakdown.vat0 = .val 0
      ∧ r.receipt.vatBreakdown.vat7 = .val 0
      ∧ r.receipt.vatBreakdown.vat19 = .val (5 / 2)
      ∧ r.receipt.vatBreakdown.other = .val 10
      ∧ r.receipt.totalAmount = .val (25 / 2)
      ∧ r.receipt.paymentMethod = some "card"
      ∧ r.receiptCounter = .val 42
      ∧ r.registerID = "REG01" := by
  refine ⟨_, parseReceiptString_eq _ "12.50_0_0_2.50_10.00" "EC:card"
    (by decide) (by decide) (by decide) (by decide) (by decide) (by decide), ?_⟩
  refine ⟨rfl, rfl, rfl, rfl, ?_, ?_, ?_, ?_, ?_, ?_, rfl, ?_, rfl⟩
  · exact Eq.trans (by rfl) jsStringToNumber_12_50
  · exact Eq.trans (by rfl) jsStringToNumber_0
  · exact Eq.trans (by rfl) jsStringToNumber_0
  · exact Eq.trans (by rfl) jsStringToNumber_2_50
  · exact Eq.trans (by rfl) jsStringToNumber_10_00
  · exact Eq.trans (by rfl) jsStringToNumber_12_50
  · exact Eq.trans (by rfl) jsParseInt10_42

/-- C2: parseReceiptString is total: for every input string it terminates with
a parse outcome, either the failure marker none or some record; nothing else
(the shallow embedding is a total Lean function, so no exception can reach the
caller). -/
theorem c2_parse_total (s : String) :
    parseReceiptString s = none ∨ ∃ r : GermanReceiptData, parseReceiptString s = some r := by
  cases h : parseReceiptString s with
  | none => exact Or.inl rfl
  | some r => exact Or.inr ⟨r, rfl⟩

/-- C3: every input splitting into fewer than 12 semicolon-separated fields
(in particular the 4-field input "a;b;c;d") parses to the failure outcome,
while an input with exactly 12 fields and a valid compound field 3 parses to
success. -/
theorem c3_min_field_boundary :
    (∀ s : String, (jsSplit ';' s).length < 12 → parseReceiptString s = none)
    ∧ parseReceiptString "a;b;c;d" = none
    ∧ (jsSplit ';' "1.0;u;t;L^1_2_3_4_5^9.99:card;42;R;s;e;alg;fmt;sig;cert").length = 12
    ∧ (parseReceiptString "1.0;u;t;L^1_2_3_4_5^9.99:card;42;R;s;e;alg;fmt;sig;cert").isSome = true := by
  refine ⟨?_, by rfl, by rfl, by rfl⟩
  intro s h
  simp only [parseReceiptString]
  rw [if_pos h]

/-- Witness for C3 at the concrete input "too;few;fields" (3 fields). -/
theorem c3_min_field_boundary_witness : parseReceiptString "too;few;fields" = none :=
  c3_min_field_boundary.1 "too;few;fields" (by decide)

/-- C4: for every input with at least 12 semicolon-separated fields whose
field 3 contains no caret character, the parse returns the failure outcome
regardless of the validity of all other fields. -/
theorem c4_no_caret_fails (s : String)
    (h12 : 12 ≤ (jsSplit ';' s).length)
    (hnc : '^' ∉ ((jsSplit ';' s).getD 3 "").data) :
    parseReceiptString s = none := by
  simp only [parseReceiptString]
  rw [if_neg (by omega), jsSplit_of_not_mem hnc]
  rfl

/-- Witness for C4 at the example input of the claim. -/
theorem c4_no_caret_fails_witness :
    parseReceiptString "1.0;u;t;label_only_no_caret;42;R;s;e;alg;fmt;sig;cert" = none :=
  c4_no_caret_fails _ (by decide) (by decide)

/-- C5: every successful parse yields a record whose totalAmount equals
vatBreakdown.total (both are the first underscore-separated VAT component);
the amount token of the payment sub-part never enters either field. -/
theorem c5_totalAmount_eq_vat_total (s : String) (r : GermanReceiptData)
    (h : parseReceiptString s = some r) :
    r.receipt.totalAmount = r.receipt.vatBreakdown.total := by
  simp only [parseReceiptString] at h
  split at h
  · simp at h
  · split at h
    · split at h
      · simp at h
      · split at h
        · simp at h
        · injection h with h2
          subst h2
          rfl
    · simp at h

/-- Witness for C5 at a concrete successfully parsed input. -/
theorem c5_totalAmount_eq_vat_total_witness :
    ((parseReceiptString ";;;a^1_2_3_4_5^x:y;;;;;;;;").get (by rfl)).receipt.totalAmount
      = ((parseReceiptString ";;;a^1_2_3_4_5^x:y;;;;;;;;").get (by rfl)).receipt.vatBreakdown.total :=
  c5_totalAmount_eq_vat_total _ _ (Option.some_get (by rfl)).symm

/-- C6: a VAT sub-part with exactly 4 underscore-separated components makes
the parse fail; with 5 components (and the rest valid) it succeeds, and
components beyond the fifth are ignored: an input differing only in extra
components parses to the very same outcome. -/
theorem c6_vat_count_boundary :
    (∀ s : String,
        (jsSplit '_' ((jsSplit '^' ((jsSplit ';' s).getD 3 "")).getD 1 "")).length = 4 →
        parseReceiptString s = none)
    ∧ (parseReceiptString ";;;L^1_2_3_4_5^a:b;;;;;;;;").isSome = true
    ∧ parseReceiptString ";;;L^1_2_3_4_5_6_7^a:b;;;;;;;;"
        = parseReceiptString ";;;L^1_2_3_4_5^a:b;;;;;;;;"
    ∧ ";;;L^1_2_3_4_5_6_7^a:b;;;;;;;;" ≠ ";;;L^1_2_3_4_5^a:b;;;;;;;;" := by
  refine ⟨?_, by rfl, by rfl, by decide⟩
  intro s h
  simp only [parseReceiptString]
  split
  · rfl
  · cases hget1 : (jsSplit '^' ((jsSplit ';' s).getD 3 "")).get? 1 with
    | none => rfl
    | some v =>
      cases hget2 : (jsSplit '^' ((jsSplit ';' s).getD 3 "")).get? 2 with
      | none => rfl
      | some p =>
        have hgd : (jsSplit '^' ((jsSplit ';' s).getD 3 "")).getD 1 "" = v := by
          rw [getD_eq_get?_getD, hget1]; rfl
        rw [hgd] at h
        by_cases hvp : v = "" ∨ p = ""
        · exact if_pos hvp
        · exact (if_neg hvp).trans (if_pos (by rw [List.length_map, h]; norm_num))

/-- Witness for C6 at a concrete input whose VAT sub-part has 4 components. -/
theorem c6_vat_count_boundary_witness :
    parseReceiptString ";;;M^9_8_7_6^a:b;;;;;;;;" = none :=
  c6_vat_count_boundary.1 ";;;M^9_8_7_6^a:b;;;;;;;;" (by decide)

/-- C7: a non-numeric token among the first five VAT components does not make
the parse fail: when the structural checks pass the parse succeeds, and the
token propagates as the NaN value in the corresponding vatBreakdown field. -/
theorem c7_nan_propagates (s v p : String) (i : ℕ)
    (h12 : ¬ (jsSplit ';' s).length < 12)
    (hv : (jsSplit '^' ((jsSplit ';' s).getD 3 "")).get? 1 = some v)
    (hp : (jsSplit '^' ((jsSplit ';' s).getD 3 "")).get? 2 = some p)
    (hvne : ¬ v = "") (hpne : ¬ p = "")
    (h5 : 5 ≤ (jsSplit '_' v).length)
    (hi : i < 5)
    (hnan : jsStringToNumber ((jsSplit '_' v).getD i "") = .nan) :
    vatEntryOpt (parseReceiptString s) i = some .nan := by
  have hlen : ¬ ((jsSplit '_' v).map jsStringToNumber).length < 5 := by
    rw [List.length_map]; omega
  simp only [vatEntryOpt]
  rw [parseReceiptString_eq s v p h12 hv hp hvne hpne hlen]
  simp only [Option.map_some']
  interval_cases i
  · exact congrArg some (Eq.trans (by rfl)
      ((getD_map_lt jsStringToNumber (jsSplit '_' v) 0 "" JSNum.nan (by omega)).trans hnan))
  · exact congrArg some (Eq.trans (by rfl)
      ((getD_map_lt jsStringToNumber (jsSplit '_' v) 1 "" JSNum.nan (by omega)).trans hnan))
  · exact congrArg some (Eq.trans (by rfl)
      ((getD_map_lt jsStringToNumber (jsSplit '_' v) 2 "" JSNum.nan (by omega)).trans hnan))
  · exact congrArg some (Eq.trans (by rfl)
      ((getD_map_lt jsStringToNumber (jsSplit '_' v) 3 "" JSNum.nan (by omega)).trans hnan))
  · exact congrArg some (Eq.trans (by rfl)
      ((getD_map_lt jsStringToNumber (jsSplit '_' v) 4 "" JSNum.nan (by omega)).trans hnan))

/-- Witness for C7 at a concrete input whose third VAT component is "abc". -/
theorem c7_nan_propagates_witness :
    vatEntryOpt (parseReceiptString ";;;N^1_2_abc_4_5^x:y;;;;;;;;") 2 = some .nan :=
  c7_nan_propagates _ "1_2_abc_4_5" "x:y" 2 (by decide) (by decide) (by decide)
    (by decide) (by decide) (by decide) (by decide) (by rfl)

/-- C8: parseReceiptString is deterministic: two invocations on the same input
yield structurally equal outcomes. -/
theorem c8_deterministic (s : String) (o1 o2 : Option GermanReceiptData)
    (h1 : parseReceiptString s = o1) (h2 : parseReceiptString s = o2) : o1 = o2 :=
  h1.symm.trans h2

/-- Witness for C8 at a concrete input. -/
theorem c8_deterministic_witness :
    parseReceiptString "d;e;t" = parseReceiptString "d;e;t" :=
  c8_deterministic "d;e;t" (parseReceiptString "d;e;t") (parseReceiptString "d;e;t") rfl rfl

/-- C9: when field 3 splits on the caret into three non-empty pieces but the
payment sub-part contains no colon, the parse (the other checks passing) does
not fail: it succeeds with an absent/undefined paymentMethod. -/
theorem c9_no_colon_payment_undefined (s l v p : String)
    (h12 : ¬ (jsSplit ';' s).length < 12)
    (hsplit : jsSplit '^' ((jsSplit ';' s).getD 3 "") = [l, v, p])
    (hlne : ¬ l = "") (hvne : ¬ v = "") (hpne : ¬ p = "")
    (h5 : 5 ≤ (jsSplit '_' v).length)
    (hnc : ':' ∉ p.data) :
    paymentMethodOpt (parseReceiptString s) = some none := by
  have hv : (jsSplit '^' ((jsSplit ';' s).getD 3 "")).get? 1 = some v := by
    rw [hsplit]; rfl
  have hp : (jsSplit '^' ((jsSplit ';' s).getD 3 "")).get? 2 = some p := by
    rw [hsplit]; rfl
  have hlen : ¬ ((jsSplit '_' v).map jsStringToNumber).length < 5 := by
    rw [List.length_map]; omega
  simp only [paymentMethodOpt]
  rw [parseReceiptString_eq s v p h12 hv hp hvne hpne hlen]
  simp only [Option.map_some']
  rw [jsSplit_of_not_mem hnc]
  rfl

/-- Witness for C9 at a concrete input whose payment sub-part has no colon. -/
theorem c9_no_colon_payment_undefined_witness :
    paymentMethodOpt (parseReceiptString ";;;P^1_2_3_4_5^nocolon;;;;;;;;") = some none :=
  c9_no_colon_payment_undefined _ "P" "1_2_3_4_5" "nocolon" (by decide) (by decide)
    (by decide) (by decide) (by decide) (by decide) (by decide)

/-- C10: a successful parse does not guarantee an integer receiptCounter: when
field 4 does not begin with a parseable integer (and the structural checks
pass), the parse succeeds and the receiptCounter is NaN. -/
theorem c10_receiptCounter_nan (s v p : String)
    (h12 : ¬ (jsSplit ';' s).length < 12)
    (hv : (jsSplit '^' ((jsSplit ';' s).getD 3 "")).get? 1 = some v)
    (hp : (jsSplit '^' ((jsSplit ';' s).getD 3 "")).get? 2 = some p)
    (hvne : ¬ v = "") (hpne : ¬ p = "")
    (h5 : 5 ≤ (jsSplit '_' v).length)
    (hnan : jsParseInt10 ((jsSplit ';' s).getD 4 "") = .nan) :
    receiptCounterOpt (parseReceiptString s) = some .nan := by
  have hlen : ¬ ((jsSplit '_' v).map jsStringToNumber).length < 5 := by
    rw [List.length_map]; omega
  simp only [receiptCounterOpt]
  rw [parseReceiptString_eq s v p h12 hv hp hvne hpne hlen]
  simp only [Option.map_some']
  rw [hnan]

/-- Witness for C10 at a concrete input whose field 4 is "notanum". -/
theorem c10_receiptCounter_nan_witness :
    receiptCounterOpt (parseReceiptString ";;;Q^1_2_3_4_5^x:y;notanum;;;;;;;") = some .nan :=
  c10_receiptCounter_nan _ "1_2_3_4_5" "x:y" (by decide) (by decide) (by decide)
    (by decide) (by decide) (by decide) (by rfl)

end QRPoc
